import Mathlib

/-!
Shallow embedding of the user-account core of this repository: the
controller functions registerUser and loginUser, together with models of
the collaborators they call (bcrypt hashing, the mongoose user model and
store, and JWT signing).  The controller source lives in
src/src/config/db.js (registerUser, loginUser).  The mongoose schema
(models/userModel.js) is not shipped in src/, so it is modelled from the
spec where noted.
-/

set_option maxRecDepth 4000

/-- Modelled from the spec: the bcrypt Password Hasher collaborator
(models/userModel.js and the bcrypt library are outside src/).  The digest
is a function of the salt embedded in the hash and of the plaintext,
injective in the plaintext for a fixed salt, mirroring the contract that
verify recomputes the hash with the parameters stored in the hashed value
and compares. -/
def bcryptDigest (salt p : String) : String := salt ++ "#" ++ p

/-- A bcrypt hash value: the cost and salt are recoverable from the stored
string, the digest is one-way.  Modelled structurally rather than as the
raw modular-crypt string. -/
structure BcryptHash where
  cost : Nat
  salt : String
  digest : String
deriving DecidableEq, Repr

/-- Model of bcrypt.hash for a string input: salted, cost-parameterised.
The salt is passed explicitly to expose the nondeterminism of salting. -/
def bcryptHash (p : String) (cost : Nat) (salt : String) : BcryptHash :=
  ⟨cost, salt, bcryptDigest salt p⟩

/-- Model of bcrypt.compare: recompute the digest from the salt stored in
the hash and compare. -/
def bcryptCompare (p : String) (h : BcryptHash) : Bool :=
  h.digest == bcryptDigest h.salt p

/-- Errors thrown by the JavaScript collaborators and caught by the
controllers: bcrypt illegal-argument rejection, mongoose schema
validation failure, duplicate-key index violation, storage connectivity
failure. -/
inductive JsError where
  | illegalArguments
  | validationFailed
  | duplicateKey
  | connectionFailed
deriving DecidableEq, Repr

/-- bcrypt.hash as called on a possibly absent request field: JavaScript
bcrypt rejects a non-string data argument, so an absent password throws. -/
def bcryptHashJs : Option String → Nat → String → Except JsError BcryptHash
  | none, _, _ => Except.error JsError.illegalArguments
  | some p, cost, salt => Except.ok (bcryptHash p cost salt)

/-- A persisted user identity record, per the data model: id assigned by
the store, username, email, stored password hash, role. -/
structure UserRecord where
  id : Nat
  username : String
  email : String
  password : BcryptHash
  role : String
deriving DecidableEq, Repr

/-- The credential store state: a connectivity flag (true models the
database being unreachable, so every store operation throws), the next id
to assign, and the persisted records in insertion order. -/
structure Store where
  dbDown : Bool
  nextId : Nat
  users : List UserRecord
deriving DecidableEq, Repr

/-- Modelled from the spec: models/userModel.js is not under src/.  Per the
spec data model, username, email and password are required (mongoose
rejects an absent or empty string for a required string path), at most one
record corresponds to one email (unique index, violation throws at save
with no write), and role is an enumerated value defaulting to student.
The controller never passes a role, so the schema default student is
always taken.  save throws on connectivity failure. -/
def saveUser (s : Store) (username email : Option String) (hashed : BcryptHash) :
    Except JsError Store :=
  if s.dbDown then Except.error JsError.connectionFailed
  else
    match username, email with
    | some u, some e =>
      if u = "" then Except.error JsError.validationFailed
      else if e = "" then Except.error JsError.validationFailed
      else if s.users.any (fun r => r.email == e) then Except.error JsError.duplicateKey
      else Except.ok ⟨s.dbDown, s.nextId + 1, s.users ++ [⟨s.nextId, u, e, hashed, "student"⟩]⟩
    | _, _ => Except.error JsError.validationFailed

/-- Model of User.findOne on the email key: throws on connectivity
failure, otherwise returns the first record whose email equals the query
value, or none.  An absent query email is modelled as matching no record;
no claim depends on that branch. -/
def findOneByEmail (s : Store) (email : Option String) :
    Except JsError (Option UserRecord) :=
  if s.dbDown then Except.error JsError.connectionFailed
  else Except.ok (s.users.find? (fun r => email == some r.email))

/-- A decoded JWT as produced by jwt.sign: the payload id claim, issued-at
and expiry times in seconds, and the signing secret. -/
structure Jwt where
  payloadId : Nat
  iat : Nat
  exp : Nat
  secret : String
deriving DecidableEq, Repr

/-- The JavaScript expression process.env.JWT_SECRET or-else the literal
string secret: an unset variable and an empty string are both falsy, so
either selects the fallback constant. -/
def jsOrSecret (env : Option String) : String :=
  match env with
  | none => "secret"
  | some s => if s = "" then "secret" else s

/-- Model of jwt.sign with expiresIn: exp is iat plus the ttl in seconds,
iat is the current time. -/
def jwtSign (subjectId : Nat) (secret : String) (ttlSeconds : Nat) (now : Nat) : Jwt :=
  ⟨subjectId, now, now + ttlSeconds, secret⟩

/-- The JSON body of a controller response: a success message object, an
error object, or a token object. -/
inductive ResponseBody where
  | message : String → ResponseBody
  | errorMsg : String → ResponseBody
  | token : Jwt → ResponseBody
deriving DecidableEq, Repr

/-- An HTTP response: status code and JSON body. -/
structure HttpResponse where
  status : Nat
  body : ResponseBody
deriving DecidableEq, Repr

/-- The request body of POST register as destructured by the controller;
each field may be absent.  The controller destructures only username,
email and password, never role, but the field is kept to state claims
about supplied roles. -/
structure RegisterBody where
  username : Option String
  email : Option String
  password : Option String
  role : Option String
deriving DecidableEq, Repr

/-- The request body of POST login as destructured by the controller. -/
structure LoginBody where
  email : Option String
  password : Option String
deriving DecidableEq, Repr

/-- Embedding of registerUser from src/src/config/db.js: hash the password
with cost 10, construct the user from username, email and the hash only,
save it, respond 201 on success; any thrown error is caught and mapped to
500 with a fixed message.  Returns the response and the store after the
operation. -/
def registerUser (body : RegisterBody) (s : Store) (salt : String) :
    HttpResponse × Store :=
  match bcryptHashJs body.password 10 salt with
  | Except.error _ => (⟨500, ResponseBody.errorMsg "Registration failed."⟩, s)
  | Except.ok hashed =>
    match saveUser s body.username body.email hashed with
    | Except.error _ => (⟨500, ResponseBody.errorMsg "Registration failed."⟩, s)
    | Except.ok s2 => (⟨201, ResponseBody.message "User registered successfully."⟩, s2)

/-- Embedding of loginUser from src/src/config/db.js: find the user by
email (404 if absent), compare the password against the stored hash (401
on mismatch, a throw on an absent password), sign a JWT over the user id
with the environment secret or the fallback constant and a ttl of one
hour; any thrown error is caught and mapped to 500.  Returns the response
and the store after the operation. -/
def loginUser (body : LoginBody) (s : Store) (envSecret : Option String) (now : Nat) :
    HttpResponse × Store :=
  match findOneByEmail s body.email with
  | Except.error _ => (⟨500, ResponseBody.errorMsg "Login failed."⟩, s)
  | Except.ok none => (⟨404, ResponseBody.errorMsg "User not found."⟩, s)
  | Except.ok (some user) =>
    match body.password with
    | none => (⟨500, ResponseBody.errorMsg "Login failed."⟩, s)
    | some p =>
      if bcryptCompare p user.password then
        (⟨200, ResponseBody.token (jwtSign user.id (jsOrSecret envSecret) 3600 now)⟩, s)
      else (⟨401, ResponseBody.errorMsg "Invalid credentials."⟩, s)

/-- A one-user store shared by the concrete witnesses below. -/
def demoStore : Store :=
  ⟨false, 1, [⟨0, "alice", "alice@x.com", bcryptHash "pw123456" 10 "s0", "student"⟩]⟩

/-- Claim C9: for every Login request and every starting store state, the
store after the operation equals the store before it — loginUser performs
only a read (findOne), on every branch: success, user-not-found,
invalid-credentials, and the caught-failure branch. -/
theorem c9_login_preserves_store (body : LoginBody) (s : Store)
    (envSecret : Option String) (now : Nat) :
    (loginUser body s envSecret now).2 = s := by
  cases hf : findOneByEmail s body.email with
  | error e => simp [loginUser, hf]
  | ok o =>
    cases o with
    | none => simp [loginUser, hf]
    | some user =>
      cases hp : body.password with
      | none => simp [loginUser, hf, hp]
      | some p =>
        cases hb : bcryptCompare p user.password <;> simp [loginUser, hf, hp, hb]

/-- Claim C10: every invocation of registerUser and of loginUser produces
exactly one response, whose status is drawn from a fixed finite set: 201
or 500 for registration, and 200, 404, 401 or 500 for login.  The
controllers are total functions of their inputs, so every collaborator
failure (hasher throw, store validation or connectivity throw) is caught
and mapped to the 500 branch rather than escaping. -/
theorem c10_status_totality (rb : RegisterBody) (lb : LoginBody) (s s2 : Store)
    (salt : String) (envSecret : Option String) (now : Nat) :
    ((registerUser rb s salt).1.status = 201 ∨ (registerUser rb s salt).1.status = 500) ∧
    ((loginUser lb s2 envSecret now).1.status = 200 ∨
      (loginUser lb s2 envSecret now).1.status = 404 ∨
      (loginUser lb s2 envSecret now).1.status = 401 ∨
      (loginUser lb s2 envSecret now).1.status = 500) := by
  constructor
  · cases h1 : bcryptHashJs rb.password 10 salt with
    | error e => simp [registerUser, h1]
    | ok hashed =>
      cases h2 : saveUser s rb.username rb.email hashed with
      | error e => simp [registerUser, h1, h2]
      | ok s3 => simp [registerUser, h1, h2]
  · cases hf : findOneByEmail s2 lb.email with
    | error e => simp [loginUser, hf]
    | ok o =>
      cases o with
      | none => simp [loginUser, hf]
      | some user =>
        cases hp : lb.password with
        | none => simp [loginUser, hf, hp]
        | some p =>
          cases hb : bcryptCompare p user.password <;> simp [loginUser, hf, hp, hb]

/-- Claim C8: the Register response never carries the plaintext password,
the password hash, a token, or any record payload — on both branches it is
one of two fixed constant bodies; and no operation response ever includes
the stored passwordHash: the only non-constant Login response is a token
carrying exactly the matched record id, the issue time, the expiry and the
signing secret. -/
theorem c8_no_secret_material (rb : RegisterBody) (lb : LoginBody) (s s2 : Store)
    (salt : String) (envSecret : Option String) (now : Nat) :
    ((registerUser rb s salt).1 = ⟨201, ResponseBody.message "User registered successfully."⟩ ∨
      (registerUser rb s salt).1 = ⟨500, ResponseBody.errorMsg "Registration failed."⟩) ∧
    ((loginUser lb s2 envSecret now).1.body = ResponseBody.errorMsg "Login failed." ∨
      (loginUser lb s2 envSecret now).1.body = ResponseBody.errorMsg "User not found." ∨
      (loginUser lb s2 envSecret now).1.body = ResponseBody.errorMsg "Invalid credentials." ∨
      ∃ user, s2.users.find? (fun r => lb.email == some r.email) = some user ∧
        (loginUser lb s2 envSecret now).1.body =
          ResponseBody.token (jwtSign user.id (jsOrSecret envSecret) 3600 now)) := by
  constructor
  · cases h1 : bcryptHashJs rb.password 10 salt with
    | error e => simp [registerUser, h1]
    | ok hashed =>
      cases h2 : saveUser s rb.username rb.email hashed with
      | error e => simp [registerUser, h1, h2]
      | ok s3 => simp [registerUser, h1, h2]
  · cases hdb : s2.dbDown with
    | true => simp [loginUser, findOneByEmail, hdb]
    | false =>
      cases hf : s2.users.find? (fun r => lb.email == some r.email) with
      | none => simp [loginUser, findOneByEmail, hdb, hf]
      | some user =>
        cases hp : lb.password with
        | none => simp [loginUser, findOneByEmail, hdb, hf, hp]
        | some p =>
          cases hb : bcryptCompare p user.password with
          | false => simp [loginUser, findOneByEmail, hdb, hf, hp, hb]
          | true =>
            refine Or.inr (Or.inr (Or.inr ⟨user, by simp [hf], ?_⟩))
            simp [loginUser, findOneByEmail, hdb, hf, hp, hb]

/-- Claim C1 as stated is false: a Register request with the password
field absent is answered with status 500, not 400, because the controller
performs no presence validation and the bcrypt throw is caught by the
generic handler. -/
theorem c1_counterexample :
    (registerUser ⟨some "alice", some "alice@x.com", none, none⟩
        ⟨false, 0, []⟩ "s0").1.status = 500 ∧
    ¬ (registerUser ⟨some "alice", some "alice@x.com", none, none⟩
        ⟨false, 0, []⟩ "s0").1.status = 400 := by
  decide

/-- Claim C1 amended: a Register request missing any of username, email or
password fails, but with status 500 (the generic RegistrationFailed
branch, reached after the hasher or the store schema validation throws)
rather than 400, and no record is written to the store. -/
theorem c1_missing_field_500 (body : RegisterBody) (s : Store) (salt : String)
    (h : body.username = none ∨ body.email = none ∨ body.password = none) :
    (registerUser body s salt).1.status = 500 ∧ (registerUser body s salt).2 = s := by
  cases hp : body.password with
  | none => simp [registerUser, bcryptHashJs, hp]
  | some p =>
    cases hdb : s.dbDown with
    | true => simp [registerUser, bcryptHashJs, hp, saveUser, hdb]
    | false =>
      rcases h with hu | he | hpw
      · cases he2 : body.email <;>
          simp [registerUser, bcryptHashJs, hp, saveUser, hdb, hu, he2]
      · cases hu2 : body.username <;>
          simp [registerUser, bcryptHashJs, hp, saveUser, hdb, he, hu2]
      · rw [hp] at hpw
        exact absurd hpw (by simp)

theorem c1_missing_field_500_witness :
    (registerUser ⟨none, some "bob@x.com", some "pw", none⟩ ⟨false, 0, []⟩ "s1").1.status = 500 ∧
    (registerUser ⟨none, some "bob@x.com", some "pw", none⟩ ⟨false, 0, []⟩ "s1").2 =
      ⟨false, 0, []⟩ :=
  c1_missing_field_500 ⟨none, some "bob@x.com", some "pw", none⟩ ⟨false, 0, []⟩ "s1"
    (Or.inl rfl)

/-- Claim C2 evaluated at the failing input: a Register request that
supplies role instructor succeeds with 201, yet the stored record has
role student — the controller never reads the role field, so the schema
default is always taken and the supplied role is silently discarded. -/
theorem c2_role_ignored :
    (registerUser ⟨some "carol", some "carol@x.com", some "pw123456", some "instructor"⟩
        ⟨false, 0, []⟩ "s2").1.status = 201 ∧
    ((registerUser ⟨some "carol", some "carol@x.com", some "pw123456", some "instructor"⟩
        ⟨false, 0, []⟩ "s2").2).users.map UserRecord.role = ["student"] := by
  decide

/-- Claim C4: with the store reachable, a Login whose email matches no
record is answered 404 User not found, and a Login whose email matches a
record but whose password does not verify against the stored hash is
answered 401 Invalid credentials; in both cases the body is a fixed error
object, so no token is issued. -/
theorem c4_login_error_branches (body : LoginBody) (s : Store)
    (envSecret : Option String) (now : Nat) (hdb : s.dbDown = false) :
    (s.users.find? (fun r => body.email == some r.email) = none →
      (loginUser body s envSecret now).1 =
        ⟨404, ResponseBody.errorMsg "User not found."⟩) ∧
    (∀ user p, s.users.find? (fun r => body.email == some r.email) = some user →
      body.password = some p → bcryptCompare p user.password = false →
      (loginUser body s envSecret now).1 =
        ⟨401, ResponseBody.errorMsg "Invalid credentials."⟩) := by
  constructor
  · intro hf
    simp [loginUser, findOneByEmail, hdb, hf]
  · intro user p hf hp hb
    simp [loginUser, findOneByEmail, hdb, hf, hp, hb]

theorem c4_login_error_branches_witness :
    (loginUser ⟨some "nobody@x.com", some "x"⟩ demoStore none 5).1 =
      ⟨404, ResponseBody.errorMsg "User not found."⟩ ∧
    (loginUser ⟨some "alice@x.com", some "wrong"⟩ demoStore none 5).1 =
      ⟨401, ResponseBody.errorMsg "Invalid credentials."⟩ :=
  ⟨(c4_login_error_branches ⟨some "nobody@x.com", some "x"⟩ demoStore none 5 rfl).1
      (by decide),
   (c4_login_error_branches ⟨some "alice@x.com", some "wrong"⟩ demoStore none 5 rfl).2
      ⟨0, "alice", "alice@x.com", bcryptHash "pw123456" 10 "s0", "student"⟩ "wrong"
      (by decide) rfl (by decide)⟩

/-- For a fixed salt the modelled digest determines the plaintext. -/
theorem bcryptDigest_inj (salt p p2 : String)
    (h : bcryptDigest salt p = bcryptDigest salt p2) : p = p2 := by
  unfold bcryptDigest at h
  have hd := congrArg String.data h
  simp only [String.data_append] at hd
  exact String.ext (List.append_cancel_left hd)

/-- Claim C7: verifying a password against its own hash succeeds, and
verifying it against the hash of a different password fails, for any salt
and cost — the modelled verify recomputes the digest with the salt stored
in the hash, and the digest is injective in the plaintext for a fixed
salt. -/
theorem c7_hash_verify (p p2 salt : String) (cost : Nat) (hne : p ≠ p2) :
    bcryptCompare p (bcryptHash p cost salt) = true ∧
    bcryptCompare p (bcryptHash p2 cost salt) = false := by
  constructor
  · simp [bcryptCompare, bcryptHash]
  · simp only [bcryptCompare, bcryptHash]
    rw [beq_eq_false_iff_ne]
    intro h
    exact hne (bcryptDigest_inj salt p2 p h).symm

theorem c7_hash_verify_witness :
    bcryptCompare "pw123456" (bcryptHash "pw123456" 10 "s9") = true ∧
    bcryptCompare "pw123456" (bcryptHash "other" 10 "s9") = false :=
  c7_hash_verify "pw123456" "other" "s9" 10 (by decide)

/-- Any token body produced by loginUser is signed over the id of the
record that findOne returned, at the given clock, with the selected
secret and a ttl of one hour. -/
theorem login_token_shape (body : LoginBody) (s : Store) (envSecret : Option String)
    (now : Nat) (t : Jwt)
    (h : (loginUser body s envSecret now).1.body = ResponseBody.token t) :
    ∃ user, s.users.find? (fun r => body.email == some r.email) = some user ∧
      t = jwtSign user.id (jsOrSecret envSecret) 3600 now := by
  cases hdb : s.dbDown with
  | true =>
    exact absurd h (by simp [loginUser, findOneByEmail, hdb])
  | false =>
    cases hf : s.users.find? (fun r => body.email == some r.email) with
    | none => exact absurd h (by simp [loginUser, findOneByEmail, hdb, hf])
    | some user =>
      cases hp : body.password with
      | none => exact absurd h (by simp [loginUser, findOneByEmail, hdb, hf, hp])
      | some p =>
        cases hb : bcryptCompare p user.password with
        | false => exact absurd h (by simp [loginUser, findOneByEmail, hdb, hf, hp, hb])
        | true =>
          have ht : jwtSign user.id (jsOrSecret envSecret) 3600 now = t := by
            simpa [loginUser, findOneByEmail, hdb, hf, hp, hb] using h
          exact ⟨user, by simp [hf], ht.symm⟩

/-- Claim C5: every token issued by a successful Login binds the payload
id to the id of the record that the email lookup matched, its issued-at
time is the signing clock, and its expiry is exactly 3600 seconds after
its issued-at time. -/
theorem c5_token_binding (body : LoginBody) (s : Store) (envSecret : Option String)
    (now : Nat) (t : Jwt)
    (h : (loginUser body s envSecret now).1.body = ResponseBody.token t) :
    t.iat = now ∧ t.exp = t.iat + 3600 ∧
    ∃ user, s.users.find? (fun r => body.email == some r.email) = some user ∧
      t.payloadId = user.id := by
  obtain ⟨user, hf, ht⟩ := login_token_shape body s envSecret now t h
  subst ht
  exact ⟨rfl, rfl, user, hf, rfl⟩

theorem c5_token_binding_witness :
    (⟨0, 1000, 4600, "secret"⟩ : Jwt).iat = 1000 ∧
    (⟨0, 1000, 4600, "secret"⟩ : Jwt).exp = (⟨0, 1000, 4600, "secret"⟩ : Jwt).iat + 3600 ∧
    ∃ user, demoStore.users.find?
        (fun r => (some "alice@x.com" : Option String) == some r.email) = some user ∧
      (⟨0, 1000, 4600, "secret"⟩ : Jwt).payloadId = user.id :=
  c5_token_binding ⟨some "alice@x.com", some "pw123456"⟩ demoStore none 1000
    ⟨0, 1000, 4600, "secret"⟩ (by decide)

/-- Claim C6: token issuance never fails for want of a secret — when the
environment secret is configured (set and non-empty, the JavaScript
truthiness condition), the token is signed with it, and when it is
absent the token is signed with the fixed fallback constant secret. -/
theorem c6_secret_selection (body : LoginBody) (s : Store) (now : Nat)
    (t t2 : Jwt) (sec : String) (hsec : sec ≠ "") :
    ((loginUser body s (some sec) now).1.body = ResponseBody.token t →
      t.secret = sec) ∧
    ((loginUser body s none now).1.body = ResponseBody.token t2 →
      t2.secret = "secret") := by
  constructor
  · intro h
    obtain ⟨user, hf, ht⟩ := login_token_shape body s (some sec) now t h
    subst ht
    simp [jwtSign, jsOrSecret, hsec]
  · intro h
    obtain ⟨user, hf, ht⟩ := login_token_shape body s none now t2 h
    subst ht
    rfl

theorem c6_secret_selection_witness :
    (⟨0, 7, 3607, "k1"⟩ : Jwt).secret = "k1" ∧
    (⟨0, 7, 3607, "secret"⟩ : Jwt).secret = "secret" :=
  ⟨(c6_secret_selection ⟨some "alice@x.com", some "pw123456"⟩ demoStore 7
      ⟨0, 7, 3607, "k1"⟩ ⟨0, 7, 3607, "secret"⟩ "k1" (by decide)).1 (by decide),
   (c6_secret_selection ⟨some "alice@x.com", some "pw123456"⟩ demoStore 7
      ⟨0, 7, 3607, "k1"⟩ ⟨0, 7, 3607, "secret"⟩ "k1" (by decide)).2 (by decide)⟩

/-- Claim C3: from any reachable store not yet holding the email, a valid
registration (all three fields present, username and email non-empty)
succeeds with 201, and a Login with the same email and password against
the resulting store succeeds with 200 and returns a token. -/
theorem c3_register_then_login (u e p salt : String) (s : Store)
    (envSecret : Option String) (now : Nat)
    (hu : u ≠ "") (he : e ≠ "") (hdb : s.dbDown = false)
    (hfresh : ∀ r ∈ s.users, r.email ≠ e) :
    (registerUser ⟨some u, some e, some p, none⟩ s salt).1.status = 201 ∧
    ∃ t : Jwt,
      (loginUser ⟨some e, some p⟩ ((registerUser ⟨some u, some e, some p, none⟩ s salt).2)
          envSecret now).1 = ⟨200, ResponseBody.token t⟩ := by
  have hany : s.users.any (fun r => r.email == e) = false := by
    rw [List.any_eq_false]
    intro r hr
    simp [hfresh r hr]
  have hreg : registerUser ⟨some u, some e, some p, none⟩ s salt =
      (⟨201, ResponseBody.message "User registered successfully."⟩,
       ⟨false, s.nextId + 1,
        s.users ++ [⟨s.nextId, u, e, bcryptHash p 10 salt, "student"⟩]⟩) := by
    simp [registerUser, bcryptHashJs, saveUser, hdb, hu, he, hany]
  refine ⟨by rw [hreg], jwtSign s.nextId (jsOrSecret envSecret) 3600 now, ?_⟩
  rw [hreg]
  have hnone : s.users.find? (fun r => e == r.email) = none := by
    rw [List.find?_eq_none]
    intro r hr
    simp [(hfresh r hr).symm]
  simp [loginUser, findOneByEmail, hnone, bcryptCompare, bcryptHash]

theorem c3_register_then_login_witness :
    (registerUser ⟨some "alice", some "alice@x.com", some "pw123456", none⟩
        ⟨false, 0, []⟩ "s0").1.status = 201 ∧
    ∃ t : Jwt,
      (loginUser ⟨some "alice@x.com", some "pw123456"⟩
          ((registerUser ⟨some "alice", some "alice@x.com", some "pw123456", none⟩
            ⟨false, 0, []⟩ "s0").2) none 1000).1 = ⟨200, ResponseBody.token t⟩ :=
  c3_register_then_login "alice" "alice@x.com" "pw123456" "s0" ⟨false, 0, []⟩ none 1000
    (by decide) (by decide) rfl (by intro r hr; cases hr)
